import Mathlib

/-!
Verification of the wheelfile library (`wheelfile.py`): shallow embedding of
the metadata models (`MetaData`, `WheelData`, `WheelRecord`), the archive
identity resolver (`_pick_a_distname`, `_pick_a_version`, `_pick_tags`), and
the `WheelFile` session operations relevant to the specified properties.

Python strings are modelled as Lean `String`s; the Python string methods used
by the source (`split`, `endswith`, `lstrip`, slicing) are modelled explicitly
over the character list of the string so that all definitions evaluate by
kernel reduction.
-/

namespace Wheelfile

/-- Models `l1` being a prefix of `l2` as a boolean, structurally. -/
def startsWithChars : List Char → List Char → Bool
  | [], _ => true
  | _ :: _, [] => false
  | a :: as, b :: bs => a = b && startsWithChars as bs

/-- Models Python `s.endswith(suffix)`. -/
def pyEndsWith (suffix s : String) : Bool :=
  startsWithChars suffix.data.reverse s.data.reverse

/-- Auxiliary recursion for `pySplit`: `acc` holds the current segment
(reversed). -/
def pySplitAux (c : Char) : List Char → List Char → List String
  | [], acc => [String.mk acc.reverse]
  | x :: xs, acc =>
      if x = c then String.mk acc.reverse :: pySplitAux c xs []
      else pySplitAux c xs (x :: acc)

/-- Models Python `s.split(c)` for a single-character separator. -/
def pySplit (c : Char) (s : String) : List String :=
  pySplitAux c s.data []

/-- Models Python `s.lstrip(c)` for a single-character strip set. -/
def pyLstrip (c : Char) (s : String) : String :=
  String.mk (s.data.dropWhile (· = c))

/-- Models Python `s[:-n]` (drop the last `n` characters). -/
def pyDropRight (n : Nat) (s : String) : String :=
  String.mk (s.data.take (s.data.length - n))

/-- Models Python `int(s)` on decimal strings: optional sign followed by
digits; any other shape raises `ValueError`, modelled as `none`. -/
def pyInt? (s : String) : Option Int :=
  let digits (cs : List Char) : Option Nat :=
    if cs.isEmpty then none
    else if cs.all Char.isDigit then
      some (cs.foldl (fun n c => n * 10 + (c.toNat - '0'.toNat)) 0)
    else none
  match s.data with
  | '-' :: rest => (digits rest).map (fun n => -(n : Int))
  | '+' :: rest => (digits rest).map (fun n => (n : Int))
  | cs => (digits cs).map (fun n => (n : Int))

/-- Models Python truthiness of `x or default` for an optional string
argument: `None` and `''` both fall through to the default. -/
def pyOr (x : Option String) (default : String) : String :=
  match x with
  | none => default
  | some s => if s = "" then default else s

/-- Models Python truthiness of an optional string (`bool(x)` where `x` is a
`str` or `None`): `None` and the empty string are falsy, every other string is
truthy. -/
def pyTruthy (x : Option String) : Bool :=
  match x with
  | none => false
  | some s => !(s = "")

/-- Exception taxonomy of `wheelfile.py` (section "Error handling"): the
custom `ValueError` subclasses declared in the source, plus the built-in
exception classes its code paths can raise. -/
inductive PyErr where
  | assertionError
  | valueError
  | typeError
  | attributeError
  | keyError
  | runtimeError
  | invalidVersion
  | unsupportedHashType
  | recordContainsDirectory
  | badWheelFile
  | unnamedDistribution
  | prohibitedWrite
deriving DecidableEq

/-- Modelled from the spec: `packaging.version.Version` (external to `src/`),
"version: parsed PEP-440-like identifier; invalid strings fail hard".
Represented by its canonical string; the claims settled here only need
construction, rendering and equality, not PEP-440 ordering. -/
structure Version where
  str : String
deriving DecidableEq

/-- Modelled from the spec: the `packaging.version.Version` constructor
(external to `src/`); accepts a version identifier string or fails with
`InvalidVersion`. Validity is modelled on the dotted-numeric subset of
PEP 440, which covers every version string appearing in the claims. -/
def versionParse (s : String) : Option Version :=
  if s ≠ "" ∧ s.data.all (fun c => c.isDigit || c = '.') then some ⟨s⟩ else none

/-- Model of `MetaData` (wheelfile.py, class MetaData): the 24 fields of the
wheel METADATA format v2.1, attribute names as in `__init__`.
`metadata_version` is a fixed constant (`'2.1'`) and not a field. Text
(de)serialization of this class is not modelled: none of the settled claims
needs it (the round-trip claim is decided on `WheelData`). -/
structure MetaData where
  name : String
  version : Version
  summary : Option String := none
  description : Option String := none
  description_content_type : Option String := none
  keywords : List String := []
  classifiers : List String := []
  author : Option String := none
  author_email : Option String := none
  maintainer : Option String := none
  maintainer_email : Option String := none
  license : Option String := none
  home_page : Option String := none
  download_url : Option String := none
  project_urls : List String := []
  platforms : List String := []
  supported_platforms : List String := []
  requires_python : Option String := none
  requires_dists : List String := []
  requires_externals : List String := []
  provides_extras : List String := []
  provides_dists : List String := []
  obsoletes_dists : List String := []
deriving DecidableEq

/-- Modelled from the spec: an RFC-822-style header block as produced by the
stdlib `email` module (external to `src/`): an ordered list of
`(header-name, value)` pairs. `str(EmailMessage)` followed by
`message_from_string` is the identity on such blocks when no header value
contains a newline, so the wire round trip is modelled as the message
itself. -/
structure Message where
  headers : List (String × String)
deriving DecidableEq

/-- Case-insensitive header-name comparison, as used by the stdlib `email`
message API. -/
def ciEq (a b : String) : Bool :=
  a.data.map Char.toLower = b.data.map Char.toLower

/-- Models `Message.get(name)`: the value of the first header whose name
matches case-insensitively, or `None`. -/
def Message.get (m : Message) (name : String) : Option String :=
  (m.headers.find? (fun h => ciEq h.1 name)).map (·.2)

/-- Models `Message.get_all(name)` up to the `None`-for-empty convention:
returns the values of all matching headers in order (the Python call returns
`None` instead of an empty list; callers of this model match on `[]`). -/
def Message.getAll (m : Message) (name : String) : List String :=
  (m.headers.filter (fun h => ciEq h.1 name)).map (·.2)

/-- Modelled from the spec: `packaging.tags.parse_tag` (external to `src/`;
only its caller `WheelData._extend_tags` is in the source). Spec section
"Tag Grammar": split the tag into its three hyphen-separated components,
split each component on dots into alternatives, and return the cartesian
product joined with `-`, outer loop over language alternatives in the given
order, then abi, then platform. Tag expressions without exactly three
components are outside the modelled scope and yield `[]`. -/
def parseTag (tag : String) : List String :=
  match pySplit '-' tag with
  | [interps, abis, plats] =>
      (pySplit '.' interps).flatMap fun i =>
        (pySplit '.' abis).flatMap fun a =>
          (pySplit '.' plats).map fun p => i ++ "-" ++ a ++ "-" ++ p
  | _ => []

/-- Models `WheelData._extend_tags`: expand every (possibly compressed) tag
in the list and concatenate the expansions in order. -/
def extendTags (tags : List String) : List String :=
  tags.flatMap parseTag

/-- Model of `WheelData` (wheelfile.py, class WheelData): the `.dist-info/WHEEL`
file contents. `wheel_version` is the fixed constant `'1.0'` and not a field.
`generator` is `Option String` because `WheelData.from_str` can construct an
instance whose generator is `None` (no validation happens before
`__str__`). -/
structure WheelData where
  generator : Option String := some ("wheelfile " ++ "0.0.8-1")
  root_is_purelib : Bool := true
  tags : List String := ["py3-none-any"]
  build : Option Int := none
deriving DecidableEq

/-- Models the `tags` parameter of `WheelData.__init__`: either a single tag
string or a list of tag strings. -/
inductive TagsArg where
  | one (tag : String)
  | many (tags : List String)
deriving DecidableEq

/-- Models `WheelData.__init__`: stores the arguments, normalizing `tags`
through `_extend_tags` (a single string is wrapped into a one-element list
first). -/
def WheelData.create (generator : Option String) (root_is_purelib : Bool)
    (tags : TagsArg) (build : Option Int) : WheelData :=
  { generator := generator
    root_is_purelib := root_is_purelib
    tags := extendTags (match tags with | .one t => [t] | .many ts => ts)
    build := build }

/-- Models `WheelData.__str__` as far as the message it builds: asserts that
`generator` is a string and `tags` is non-empty (the `isinstance` asserts on
`root_is_purelib` and `build` always hold in this typed model), then emits
`Wheel-Version`, `Generator`, `Root-Is-Purelib` (literal `true`/`false`),
one `Tag` header per tag, and `Build` if the build number is present. -/
def WheelData.toStrMsg (w : WheelData) : Except PyErr Message :=
  match w.generator with
  | none => .error .assertionError
  | some gen =>
      if w.tags = [] then .error .assertionError
      else
        .ok ⟨[("Wheel-Version", "1.0"), ("Generator", gen),
              ("Root-Is-Purelib", if w.root_is_purelib then "true" else "false")]
             ++ w.tags.map (fun t => ("Tag", t))
             ++ (match w.build with
                 | some b => [("Build", toString b)]
                 | none => [])⟩

/-- Models `WheelData.from_str` after `message_from_string`: asserts the
`Wheel-Version` header equals `'1.0'`; reads `Generator` (possibly absent,
i.e. `None`); computes `root_is_purelib` as `bool(m.get('Root-Is-Purelib'))`,
i.e. the Python truthiness of the header string; passes all `Tag` headers to
the constructor (when there are none, `get_all` returns `None` and the
constructor crashes expanding `[None]`, modelled as `attributeError`); parses
`Build` with `int()` when the header is present. -/
def WheelData.fromStrMsg (m : Message) : Except PyErr WheelData :=
  if m.get "Wheel-Version" ≠ some "1.0" then .error .assertionError
  else
    let gen := m.get "Generator"
    let rip := pyTruthy (m.get "Root-Is-Purelib")
    match m.getAll "Tag" with
    | [] => .error .attributeError
    | tags =>
        match m.get "Build" with
        | some bstr =>
            match pyInt? bstr with
            | none => .error .valueError
            | some b => .ok (WheelData.create gen rip (.many tags) (some b))
        | none => .ok (WheelData.create gen rip (.many tags) none)

/-- Models `WheelData.from_str(str(w))`: serialize to the header block and
parse it back. -/
def wheelDataRoundTrip (w : WheelData) : Except PyErr WheelData :=
  w.toStrMsg >>= WheelData.fromStrMsg

/-- Modelled from the spec: `hashlib.algorithms_guaranteed` (external stdlib),
the set of hash algorithm names guaranteed to be available, referenced by
`WheelRecord.hash_algo`'s PEP-376 check. -/
def algorithmsGuaranteed : List String :=
  ["md5", "sha1", "sha224", "sha256", "sha384", "sha512",
   "blake2b", "blake2s",
   "sha3_224", "sha3_256", "sha3_384", "sha3_512", "shake_128", "shake_256"]

/-- Model of `WheelRecord._RecordEntry`: one RECORD row. `size` is kept as a
string: `from_str` stores the raw CSV field and `update` stores the decimal
rendering of the byte count (Python stores `str` resp. `int` in the same
namedtuple slot; both serialize identically). -/
structure RecordEntry where
  path : String
  hash : String
  size : String
deriving DecidableEq

/-- Model of `WheelRecord`: `_records` is an insertion-ordered map from path
to entry (Python dict), modelled as an association list whose update keeps
the original position; `_hash_algo` as in the source. -/
structure WheelRecord where
  records : List RecordEntry := []
  hashAlgo : String := ""
deriving DecidableEq

/-- Models Python dict assignment `d[key] = entry` for the insertion-ordered
record list: replace in place if the path is present, else append. -/
def upsertEntry : List RecordEntry → RecordEntry → List RecordEntry
  | [], e => [e]
  | x :: xs, e => if x.path = e.path then e :: xs else x :: upsertEntry xs e

/-- Models the `hash_algo` property setter of `WheelRecord`: reject names
outside `hashlib.algorithms_guaranteed` (PEP 376) and the forbidden `md5` and
`sha1` (PEP 427) with `UnsupportedHashTypeError`, raised before the
`_hash_algo` slot is assigned; the record is returned alongside the outcome
to model the mutation (or its absence). -/
def WheelRecord.hashAlgoSet (r : WheelRecord) (value : String) :
    Option PyErr × WheelRecord :=
  if ¬ (algorithmsGuaranteed.contains value) then (some .unsupportedHashType, r)
  else if value = "md5" ∨ value = "sha1" then (some .unsupportedHashType, r)
  else (none, { r with hashAlgo := value })

/-- Models `WheelRecord.__init__(hash_algo)`: start with an empty record dict
and an empty `_hash_algo`, then run the `hash_algo` setter. -/
def WheelRecord.init (hash_algo : String) : Option PyErr × WheelRecord :=
  WheelRecord.hashAlgoSet { records := [], hashAlgo := "" } hash_algo

/-- Models an open binary buffer: content plus current read position
(`tell()`). -/
structure ByteStream where
  data : List Nat
  pos : Nat
deriving DecidableEq

/-- Modelled from the spec: the digest-and-encode step of
`WheelRecord._entry` (`hashlib` digest plus `_hash_encoder`'s
urlsafe-base64-nopad, both external stdlib). Modelled as an injective
symbolic rendering of the input bytes; no settled claim depends on concrete
digest values, only on the `<algo>=<encoded>` shape and on control flow. -/
def hashEncode (data : List Nat) : String :=
  String.intercalate "," (data.map (fun n => toString n))

/-- Models `WheelRecord._entry`: read the stream to exhaustion (the 64 KiB
chunking folds into one read of the remainder), record the byte count as the
size and `<algo>=<encoded digest>` as the hash. -/
def WheelRecord.entryFor (r : WheelRecord) (arcpath : String) (buf : ByteStream) :
    RecordEntry :=
  { path := arcpath
    hash := r.hashAlgo ++ "=" ++ hashEncode (buf.data.drop buf.pos)
    size := toString (buf.data.length - buf.pos) }

/-- Models `WheelRecord.update`: assert the buffer is fresh (`tell() == 0`),
assert the path is not the RECORD file itself, raise
`RecordContainsDirectoryError` on a path ending in `/`, otherwise store the
computed entry under the path. -/
def WheelRecord.update (r : WheelRecord) (arcpath : String) (buf : ByteStream) :
    Except PyErr WheelRecord :=
  if buf.pos ≠ 0 then .error .assertionError
  else if pyEndsWith ".dist-info/RECORD" arcpath then .error .assertionError
  else if pyEndsWith "/" arcpath then .error .recordContainsDirectory
  else .ok { r with records := upsertEntry r.records (r.entryFor arcpath buf) }

/-- Models `WheelRecord.remove`: delete the entry; a missing path raises
`KeyError`. -/
def WheelRecord.remove (r : WheelRecord) (arcpath : String) :
    Except PyErr WheelRecord :=
  if r.records.any (fun e => e.path = arcpath) then
    .ok { r with records := r.records.filter (fun e => ¬ e.path = arcpath) }
  else .error .keyError

/-- Models `WheelRecord.__contains__`. -/
def WheelRecord.contains (r : WheelRecord) (path : String) : Bool :=
  r.records.any (fun e => e.path = path)

/-- One parsed CSV row of a RECORD file, fields `path,hash,size`. The CSV
wire format itself (stdlib `csv`, external) is modelled at row level, per the
spec's interface section. -/
structure CsvRow where
  path : String
  hash : String
  size : String
deriving DecidableEq

/-- Loop body of `WheelRecord.from_str`: for each row, raise
`RecordContainsDirectoryError` if its path ends in `/`, else store it in the
record dict. -/
def fromRowsAux : WheelRecord → List CsvRow → Except PyErr WheelRecord
  | r, [] => .ok r
  | r, row :: rest =>
      if pyEndsWith "/" row.path then .error .recordContainsDirectory
      else fromRowsAux
        { r with records := upsertEntry r.records ⟨row.path, row.hash, row.size⟩ }
        rest

/-- Models `WheelRecord.from_str` on the parsed CSV rows: start from a fresh
`WheelRecord()` (default hash algorithm `sha256`) and insert each row,
rejecting directory paths. -/
def WheelRecord.fromRows (rows : List CsvRow) : Except PyErr WheelRecord :=
  fromRowsAux (WheelRecord.init "sha256").2 rows

/-- Models `WheelFile._pick_a_distname`: `filename = None` stands for an
unnamed target (no filename could be derived); an explicitly given distname
wins, otherwise the first `-`-separated segment of the filename, which must
be non-empty. -/
def pickADistname (filename : Option String) (givenDistname : Option String) :
    Except PyErr String :=
  match givenDistname, filename with
  | some d, _ => .ok d
  | none, none => .error .assertionError
  | none, some fn =>
      let d := (pySplit '-' fn).headD ""
      if d = "" then .error .unnamedDistribution else .ok d

/-- Models the `version` argument of `WheelFile.__init__`: either an already
constructed `Version` object or a string to be parsed. -/
inductive VersionArg where
  | ver (v : Version)
  | str (s : String)
deriving DecidableEq

/-- Models `WheelFile._pick_a_version`: a given `Version` object is used
as-is; a given string is parsed (`InvalidVersion` is re-raised as a
`ValueError`); otherwise the second `-`-separated segment of the filename is
parsed, and a missing or empty segment is an `UnnamedDistributionError`. -/
def pickAVersion (filename : Option String) (givenVersion : Option VersionArg) :
    Except PyErr Version :=
  match givenVersion, filename with
  | some (.ver v), _ => .ok v
  | some (.str s), _ =>
      match versionParse s with
      | some v => .ok v
      | none => .error .valueError
  | none, none => .error .assertionError
  | none, some fn =>
      let segs := pySplit '-' fn
      if segs.length < 2 ∨ segs.getD 1 "" = "" then .error .unnamedDistribution
      else
        match versionParse (segs.getD 1 "") with
        | some v => .ok v
        | none => .error .valueError

/-- The four tag attributes produced by `WheelFile._pick_tags`. -/
structure PickedTags where
  build : Option Int
  language : String
  abi : String
  platform : String
deriving DecidableEq

/-- Models the filename stem: `filename[:-4]` when the name ends in `.whl`,
else the name unchanged. -/
def wheelStem (fn : String) : String :=
  if pyEndsWith ".whl" fn then pyDropRight 4 fn else fn

/-- Models `WheelFile._pick_tags`. For an unnamed or directory target
(`filename = None`) the tags default to `py3`/`none`/`any` through Python
`or`. For a named target, the `.whl` suffix is stripped, the stem is split on
`-`; a segment count other than 5 or 6 is replaced by five empty segments;
with 6 segments and no given build, the third segment is parsed as the build
number (unparseable becomes `None`); language/abi/platform come from the
given arguments through Python `or`, falling back to the last three
segments. -/
def pickTags (filename : Option String) (givenBuild : Option Int)
    (givenLanguage givenAbi givenPlatform : Option String) : PickedTags :=
  match filename with
  | none =>
      { build := givenBuild
        language := pyOr givenLanguage "py3"
        abi := pyOr givenAbi "none"
        platform := pyOr givenPlatform "any" }
  | some fn =>
      let segs := pySplit '-' (wheelStem fn)
      let segs := if segs.length = 6 ∨ segs.length = 5 then segs
        else ["", "", "", "", ""]
      { build :=
          if segs.length = 6 ∧ givenBuild = none then pyInt? (segs.getD 2 "")
          else givenBuild
        language := pyOr givenLanguage (segs.getD (segs.length - 3) "")
        abi := pyOr givenAbi (segs.getD (segs.length - 2) "")
        platform := pyOr givenPlatform (segs.getD (segs.length - 1) "") }

/-- The three metadata model attributes of a `WheelFile`, each `None` when
missing or unparseable. -/
structure DistinfoModels where
  metadata : Option MetaData
  wheeldata : Option WheelData
  record : Option WheelRecord
deriving DecidableEq

/-- Models `WheelFile._read_distinfo` statement by statement. Each `*Parse`
argument stands for the outcome of the corresponding `try` block — reading
the archive entry, decoding it, and parsing it with `from_str`; `none` means
some step raised. On a METADATA failure the handler sets `metadata = None`;
on a WHEEL failure the source's handler sets `metadata = None` as well
(wheelfile.py line 1627 — not `wheeldata`); on a RECORD failure the handler
sets `record = None`. -/
def readDistinfo (metadataParse : Option MetaData)
    (wheeldataParse : Option WheelData) (recordParse : Option WheelRecord)
    (st : DistinfoModels) : DistinfoModels :=
  let st :=
    match metadataParse with
    | some md => { st with metadata := some md }
    | none => { st with metadata := none }
  let st :=
    match wheeldataParse with
    | some wd => { st with wheeldata := some wd }
    | none => { st with metadata := none }
  match recordParse with
  | some rc => { st with record := some rc }
  | none => { st with record := none }

/-- One member of the underlying zip archive: its path and content bytes.
Compression parameters and timestamps, irrelevant to the settled claims, are
not modelled. -/
structure ZipEntry where
  filename : String
  content : List Nat
deriving DecidableEq

/-- The session state a `WheelFile` threads through its write methods: the
zip entries in write order, the record model, the cached
`_distinfo_prefix` (`<normalized distname>-<normalized version>.`, computed
by `_distinfo_path` on first use and fixed thereafter), and the closed
flag. -/
structure WheelFileState where
  zipEntries : List ZipEntry
  record : Option WheelRecord
  distinfoPrefix : String
  closed : Bool
deriving DecidableEq

/-- The `WheelFile.METADATA_FILENAMES` constant. -/
def metadataFilenames : List String := ["WHEEL", "METADATA", "RECORD"]

/-- Models `WheelFile._distinfo_path(filename)` with the default
`kind='dist-info'`, using the cached prefix. -/
def distinfoPath (st : WheelFileState) (filename : String) : String :=
  st.distinfoPrefix ++ "dist-info/" ++ filename

/-- Models `ZipFile.open(name)` for reading: the contents of the entry most
recently written under `name` (the zip name index keeps the last entry for a
duplicated name), as a fresh stream; `None` when no such entry exists
(`KeyError`). -/
def zipReadLast (entries : List ZipEntry) (name : String) : Option (List Nat) :=
  (entries.reverse.find? (fun e => e.filename = name)).map (·.content)

/-- Models `WheelFile.refresh_record`: no-op without a record model or for a
directory arcname (trailing `/`); `RuntimeError` on a closed file; otherwise
reopen the written entry for a fresh read and run `WheelRecord.update` on
it. The state is returned alongside the outcome so that mutations made
before a raise are kept, mirroring statement order. -/
def refreshRecord (st : WheelFileState) (arcname : String) :
    Option PyErr × WheelFileState :=
  match st.record with
  | none => (none, st)
  | some r =>
      if pyEndsWith "/" arcname then (none, st)
      else if st.closed then (some .runtimeError, st)
      else
        match zipReadLast st.zipEntries arcname with
        | none => (some .keyError, st)
        | some content =>
            match r.update arcname ⟨content, 0⟩ with
            | .ok r2 => (none, { st with record := some r2 })
            | .error e => (some e, st)

/-- Models `WheelFile.writestr` (and equally the single-regular-file path of
`WheelFile.write`, whose `_write_to_zip` also ends in `ZipFile.writestr`
followed by `refresh_record`): a closed archive raises `ValueError` from
`ZipFile.writestr`; otherwise the entry is appended and the record is
refreshed for the written arcname. -/
def writestrM (st : WheelFileState) (arcname : String) (content : List Nat) :
    Option PyErr × WheelFileState :=
  if st.closed then (some .valueError, st)
  else
    let st := { st with zipEntries := st.zipEntries ++ [⟨arcname, content⟩] }
    refreshRecord st arcname

/-- Models `WheelFile.write_distinfo` from the point where `arcname` is
determined (resolution of the filesystem `filename` into an arcname is the
caller's concern; `content` stands for the bytes of the regular file being
added): an empty arcname and an arcname equal to one of
`METADATA_FILENAMES` raise `ProhibitedWriteError` before anything is
written; otherwise the arcname is prefixed with the dist-info path and
written. -/
def writeDistinfo (st : WheelFileState) (arcname : String) (content : List Nat) :
    Option PyErr × WheelFileState :=
  if arcname = "" then (some .prohibitedWrite, st)
  else if metadataFilenames.contains arcname then (some .prohibitedWrite, st)
  else writestrM st (distinfoPath st arcname) content

/-- Models `WheelFile.writestr_distinfo`: an arcname equal to one of
`METADATA_FILENAMES`, or whose first `/`-separated segment is one of them,
raises `ProhibitedWriteError`; otherwise the arcname is stripped of leading
slashes, prefixed with the dist-info path, and written. -/
def writestrDistinfo (st : WheelFileState) (arcname : String)
    (content : List Nat) : Option PyErr × WheelFileState :=
  if metadataFilenames.contains arcname
      ∨ metadataFilenames.contains ((pySplit '/' arcname).headD "") then
    (some .prohibitedWrite, st)
  else writestrM st (distinfoPath st (pyLstrip '/' arcname)) content

/-- Models the `skip` list of `WheelFile.namelist`/`infolist`: the archive
paths of the three managed metadata files. -/
def skipList (st : WheelFileState) : List String :=
  metadataFilenames.map (distinfoPath st)

/-- Models `ZipFile.namelist()`: entry names in archive order. -/
def zipNamelist (st : WheelFileState) : List String :=
  st.zipEntries.map (·.filename)

/-- Models `WheelFile.namelist()`: the archive's name list with the three
managed metadata paths removed. -/
def WheelFileState.namelist (st : WheelFileState) : List String :=
  (zipNamelist st).filter (fun name => ¬ (skipList st).contains name)

/-- Models `WheelFile.infolist()`: the archive's entry list with entries for
the three managed metadata paths removed. -/
def WheelFileState.infolist (st : WheelFileState) : List ZipEntry :=
  st.zipEntries.filter (fun zi => ¬ (skipList st).contains zi.filename)

/-- Models the three-state override parameters of `WheelFile.from_wheelfile`:
omitted (`_unspecified`, copy from the source object), explicit `None`
(reset to the constructor default), or an explicit value. -/
inductive Override (α : Type) where
  | unspec
  | explicitNone
  | given (v : α)
deriving DecidableEq

/-- Resolves one override against the source object's value, as the chain of
`if x is cls._unspecified` statements does. -/
def resolveOpt {α : Type} (o : Override α) (src : Option α) : Option α :=
  match o with
  | .unspec => src
  | .explicitNone => none
  | .given v => some v

/-- The data of the source `WheelFile` object that
`WheelFile.from_wheelfile` consults before creating the new session:
whether the underlying `zipfile.fp` is a caller-supplied buffer (modelled by
an identity token), `zipfile.filename` and the resolved directory of that
file, and the six identity components. -/
structure SourceInfo where
  fpBufferId : Option Nat
  zipFilename : Option String
  zipParentResolved : String
  distname : String
  version : Version
  buildTag : Option Int
  languageTag : String
  abiTag : String
  platformTag : String
deriving DecidableEq

/-- The `file_or_path` target of a clone: a caller-supplied binary buffer
(identity token plus optional `name` attribute), or a filesystem path whose
relevant resolved directory — `resolve()` of the path itself when it is a
directory, `parent.resolve()` otherwise — is carried as data (path
resolution is the out-of-scope filesystem utility of the spec). -/
inductive CloneTarget where
  | buffer (id : Nat) (name : Option String)
  | path (dirResolved : String)
deriving DecidableEq

/-- The six identity parameters after override resolution, as passed to the
new session's constructor. -/
structure CloneParams where
  distname : Option String
  version : Option Version
  buildTag : Option Int
  languageTag : Option String
  abiTag : Option String
  platformTag : Option String
deriving DecidableEq

/-- The identity parameters that reproduce the source object unchanged. -/
def sourceParams (wf : SourceInfo) : CloneParams :=
  { distname := some wf.distname
    version := some wf.version
    buildTag := wf.buildTag
    languageTag := some wf.languageTag
    abiTag := some wf.abiTag
    platformTag := some wf.platformTag }

/-- Models the override-resolution prefix of `WheelFile.from_wheelfile`: each
`_unspecified` parameter is replaced by the source's value, then a version
given as a string is parsed (raising `InvalidVersion`, a `ValueError`
subclass, on a bad string). -/
def resolveIdentity (wf : SourceInfo) (distname : Override String)
    (version : Override VersionArg) (buildTag : Override Int)
    (languageTag abiTag platformTag : Override String) :
    Except PyErr CloneParams :=
  let v0 := resolveOpt version (some (.ver wf.version))
  match v0 with
  | some (.str s) =>
      match versionParse s with
      | none => .error .invalidVersion
      | some v =>
          .ok { distname := resolveOpt distname (some wf.distname)
                version := some v
                buildTag := resolveOpt buildTag wf.buildTag
                languageTag := resolveOpt languageTag (some wf.languageTag)
                abiTag := resolveOpt abiTag (some wf.abiTag)
                platformTag := resolveOpt platformTag (some wf.platformTag) }
  | some (.ver v) =>
      .ok { distname := resolveOpt distname (some wf.distname)
            version := some v
            buildTag := resolveOpt buildTag wf.buildTag
            languageTag := resolveOpt languageTag (some wf.languageTag)
            abiTag := resolveOpt abiTag (some wf.abiTag)
            platformTag := resolveOpt platformTag (some wf.platformTag) }
  | none =>
      .ok { distname := resolveOpt distname (some wf.distname)
            version := none
            buildTag := resolveOpt buildTag wf.buildTag
            languageTag := resolveOpt languageTag (some wf.languageTag)
            abiTag := resolveOpt abiTag (some wf.abiTag)
            platformTag := resolveOpt platformTag (some wf.platformTag) }

/-- The `dir_path` computed by `from_wheelfile`: the resolved directory for a
path target, the raw `name` attribute string (if any) for a buffer target.
Comparing a `Path` against a raw string is always `False` in Python, so the
two shapes are kept distinct. -/
inductive DirPath where
  | resolvedDir (d : String)
  | rawName (s : String)
deriving DecidableEq

/-- Models the validation prefix of `WheelFile.from_wheelfile`, everything
before the new `WheelFile` is constructed and any entry is copied: reject
`'r'` in the mode; resolve the identity overrides (possibly raising
`InvalidVersion`); reject a target buffer that is the very object serving as
the source's underlying buffer; and, when both the source and the target are
backed by files, reject a target whose resolved directory equals the
directory of the source's file while every resolved identity component
equals the source's. All rejections are `ValueError`s raised before any data
is written. -/
def fromWheelfileGuard (wf : SourceInfo) (target : CloneTarget) (mode : String)
    (distname : Override String) (version : Override VersionArg)
    (buildTag : Override Int) (languageTag abiTag platformTag : Override String) :
    Except PyErr CloneParams :=
  if mode.data.contains 'r' then .error .valueError
  else
    match resolveIdentity wf distname version buildTag
        languageTag abiTag platformTag with
    | .error e => .error e
    | .ok ps =>
        let bufferClash : Bool :=
          match target with
          | .buffer id _ => wf.fpBufferId = some id
          | .path _ => false
        if bufferClash then .error .valueError
        else
          let dirPath : Option DirPath :=
            match target with
            | .path d => some (.resolvedDir d)
            | .buffer _ name => name.map .rawName
          let sameDir : Bool :=
            match wf.zipFilename, dirPath with
            | some _, some (.resolvedDir d) => d = wf.zipParentResolved
            | _, _ => false
          if sameDir ∧ ps = sourceParams wf then .error .valueError
          else .ok ps

/-- C1: in read modes the three metadata files are parsed by
`_read_distinfo`; the claim states that a parse failure of WHEEL alone
leaves the parsed `metadata` attribute intact. The source does the
opposite: its WHEEL exception handler assigns `self.metadata = None`
(wheelfile.py line 1627), so after a run where METADATA and RECORD parse
and WHEEL does not, `metadata` is `None` regardless of the successful
METADATA parse, `wheeldata` is left at its prior value (`None` from
`__init__`), and `record` holds the parsed record. This contradicts the
claim and the repo's own test
`test_metadata_is_read_even_if_wheeldata_corrupted`. -/
theorem readDistinfo_wheel_failure_clobbers_metadata :
    ∀ (md : MetaData) (rc : WheelRecord) (st : DistinfoModels),
      (readDistinfo (some md) none (some rc) st).metadata = none ∧
      (readDistinfo (some md) none (some rc) st).wheeldata = st.wheeldata ∧
      (readDistinfo (some md) none (some rc) st).record = some rc := by
  intro md rc st
  simp [readDistinfo]

/-- C2: the claim states `WheelData.from_str(str(w)) == w` for any
`WheelData` with a boolean `root_is_purelib` (either value). The source
parses the header with `bool(m.get('Root-Is-Purelib'))` (wheelfile.py line
578), and the truthiness of the non-empty string `'false'` is `True`, so a
`WheelData` serialized with `root_is_purelib=False` comes back with
`root_is_purelib=True`: the round trip fails on that field, while the
serializer itself emits the correct literal `false`. -/
theorem wheelDataRoundTrip_flips_purelib :
    wheelDataRoundTrip
        (WheelData.create (some "test") false (.one "py3-none-any") none)
      = .ok (WheelData.create (some "test") true (.one "py3-none-any") none) ∧
    WheelData.create (some "test") true (.one "py3-none-any") none
      ≠ WheelData.create (some "test") false (.one "py3-none-any") none := by
  constructor
  · rfl
  · decide

/-- C3: expanding the compressed tag expression
`py2.py3-cp2.cp3-manylinux1` — both directly through the tag grammar and
through the normalization `WheelData.__init__` applies to its `tags`
argument — yields exactly the four simple tags in language-major,
abi-minor, platform-minor order. -/
theorem tag_expansion_cartesian_product :
    parseTag "py2.py3-cp2.cp3-manylinux1"
      = ["py2-cp2-manylinux1", "py2-cp3-manylinux1",
         "py3-cp2-manylinux1", "py3-cp3-manylinux1"] ∧
    (WheelData.create (some ("wheelfile " ++ "0.0.8-1")) true
        (.one "py2.py3-cp2.cp3-manylinux1") none).tags
      = ["py2-cp2-manylinux1", "py2-cp3-manylinux1",
         "py3-cp2-manylinux1", "py3-cp3-manylinux1"] := by
  constructor
  · rfl
  · rfl

/-- C10: whenever assigning to `WheelRecord.hash_algo` raises, the record
object is unchanged by the attempt: both `UnsupportedHashTypeError` raises
in the setter happen before the `_hash_algo` slot assignment, and the
`_records` dict is never touched by the setter. -/
theorem hashAlgoSet_atomic_on_error :
    ∀ (r : WheelRecord) (v : String) (e : PyErr),
      (WheelRecord.hashAlgoSet r v).1 = some e →
      (WheelRecord.hashAlgoSet r v).2 = r := by
  intro r v e h
  unfold WheelRecord.hashAlgoSet at h ⊢
  split_ifs at h ⊢ <;> simp_all

/-- Witness for C10 at a concrete input: setting `'md5'` on a fresh
`sha256` record raises `UnsupportedHashTypeError` and leaves the record as
it was. -/
theorem hashAlgoSet_atomic_on_error_check :
    (WheelRecord.hashAlgoSet ⟨[], "sha256"⟩ "md5").1
      = some PyErr.unsupportedHashType ∧
    (WheelRecord.hashAlgoSet ⟨[], "sha256"⟩ "md5").2 = ⟨[], "sha256"⟩ :=
  ⟨by decide, hashAlgoSet_atomic_on_error _ _ PyErr.unsupportedHashType (by decide)⟩

/-- C7: constructing a `WheelRecord` (equivalently, setting `hash_algo`)
with `'md5'` or `'sha1'` raises `UnsupportedHashTypeError`; a name outside
`hashlib.algorithms_guaranteed` such as `'frobnots'` raises the same error
kind; and every guaranteed algorithm other than `md5`/`sha1` (in
particular the default `sha256`) is accepted and stored. -/
theorem hash_algo_restrictions :
    (WheelRecord.init "md5").1 = some PyErr.unsupportedHashType ∧
    (WheelRecord.init "sha1").1 = some PyErr.unsupportedHashType ∧
    (WheelRecord.init "frobnots").1 = some PyErr.unsupportedHashType ∧
    (∀ (r : WheelRecord) (v : String),
      v ∈ algorithmsGuaranteed → v ≠ "md5" → v ≠ "sha1" →
      WheelRecord.hashAlgoSet r v = (none, { r with hashAlgo := v }) ∧
      WheelRecord.init v = (none, { records := [], hashAlgo := v })) := by
  refine ⟨by decide, by decide, by decide, ?_⟩
  intro r v hv h1 h2
  fin_cases hv <;>
    simp_all [WheelRecord.hashAlgoSet, WheelRecord.init, algorithmsGuaranteed]

/-- Witness for C7 at a concrete input: `sha256` is a guaranteed algorithm
distinct from `md5` and `sha1`, and both the setter and the constructor
accept it. -/
theorem hash_algo_restrictions_check :
    WheelRecord.hashAlgoSet ⟨[], ""⟩ "sha256" = (none, ⟨[], "sha256"⟩) ∧
    WheelRecord.init "sha256" = (none, { records := [], hashAlgo := "sha256" }) :=
  ⟨(hash_algo_restrictions.2.2.2 ⟨[], ""⟩ "sha256"
      (by decide) (by decide) (by decide)).1,
   (hash_algo_restrictions.2.2.2 ⟨[], ""⟩ "sha256"
      (by decide) (by decide) (by decide)).2⟩

/-- A string ending in `/` cannot also end in `.dist-info/RECORD`: the two
suffixes disagree on the last character. -/
theorem slash_suffix_not_record (p : String) (h : pyEndsWith "/" p = true) :
    pyEndsWith ".dist-info/RECORD" p = false := by
  unfold pyEndsWith at h ⊢
  cases hp : p.data.reverse with
  | nil =>
      rw [hp] at h
      exact absurd h (by decide)
  | cons b bs =>
      rw [hp] at h
      have e1 : ("/" : String).data.reverse = ['/'] := by decide
      rw [e1] at h
      simp only [startsWithChars, Bool.and_eq_true, decide_eq_true_eq] at h
      have e2 : (".dist-info/RECORD" : String).data.reverse
          = 'D' :: ("ROCER/ofni-tsid." : String).data := by decide
      rw [e2]
      simp only [startsWithChars, Bool.and_eq_false_iff]
      left
      simp [← h.1]

/-- Inserting an entry leaves the record containing the entry's path. -/
theorem any_path_upsertEntry (l : List RecordEntry) (e : RecordEntry) :
    (upsertEntry l e).any (fun x => x.path = e.path) = true := by
  induction l with
  | nil => simp [upsertEntry]
  | cons x xs ih =>
      unfold upsertEntry
      by_cases hx : x.path = e.path <;> simp [hx, ih]

/-- The loop of `WheelRecord.from_str` fails with
`RecordContainsDirectoryError` as soon as any remaining row's path ends in
a slash, regardless of the accumulated record. -/
theorem fromRowsAux_dir_error (rows : List CsvRow) :
    ∀ (r : WheelRecord), (∃ row ∈ rows, pyEndsWith "/" row.path = true) →
      fromRowsAux r rows = .error .recordContainsDirectory := by
  induction rows with
  | nil => simp
  | cons row rest ih =>
      intro r h
      unfold fromRowsAux
      by_cases hd : pyEndsWith "/" row.path = true
      · simp [hd]
      · simp only [hd, if_false]
        apply ih
        rcases h with ⟨x, hx, hxe⟩
        rcases List.mem_cons.mp hx with rfl | hx'
        · exact absurd hxe hd
        · exact ⟨x, hx', hxe⟩

/-- C6: `WheelRecord.update` raises `RecordContainsDirectoryError` for
every arcpath ending in `/` (given a fresh stream, which the preceding
assert requires); `WheelRecord.from_str` raises the same error whenever
any CSV row's path ends in `/`; and for every arcpath not ending in `/`
that is not the RECORD file itself, with a fresh stream, `update` succeeds
and the record then contains that path. -/
theorem record_directory_rejection :
    (∀ (r : WheelRecord) (arcpath : String) (buf : ByteStream),
        buf.pos = 0 → pyEndsWith "/" arcpath = true →
        r.update arcpath buf = .error .recordContainsDirectory) ∧
    (∀ rows : List CsvRow,
        (∃ row ∈ rows, pyEndsWith "/" row.path = true) →
        WheelRecord.fromRows rows = .error .recordContainsDirectory) ∧
    (∀ (r : WheelRecord) (arcpath : String) (buf : ByteStream),
        buf.pos = 0 → pyEndsWith "/" arcpath = false →
        pyEndsWith ".dist-info/RECORD" arcpath = false →
        ∃ r', r.update arcpath buf = .ok r' ∧ r'.contains arcpath = true) := by
  refine ⟨?_, ?_, ?_⟩
  · intro r arcpath buf h0 hs
    unfold WheelRecord.update
    simp [h0, hs, slash_suffix_not_record arcpath hs]
  · intro rows h
    exact fromRowsAux_dir_error rows _ h
  · intro r arcpath buf h0 hs hr
    unfold WheelRecord.update
    simp only [h0, hs, hr, ne_eq, not_true_eq_false, if_false, Bool.false_eq_true,
      if_neg, reduceIte]
    refine ⟨_, rfl, ?_⟩
    unfold WheelRecord.contains
    have := any_path_upsertEntry r.records (r.entryFor arcpath buf)
    simpa [WheelRecord.entryFor] using this

/-- Witness for C6 at concrete inputs: a directory arcpath is rejected by
`update` and by the row-level `from_str`, and a regular file path is
accepted and becomes contained. -/
theorem record_directory_rejection_check :
    WheelRecord.update ⟨[], "sha256"⟩ "some/dir/" ⟨[], 0⟩
      = .error .recordContainsDirectory ∧
    WheelRecord.fromRows [⟨"a/dir/", "sha256=x", "0"⟩]
      = .error .recordContainsDirectory ∧
    ∃ r', WheelRecord.update ⟨[], "sha256"⟩ "file.txt" ⟨[1, 2], 0⟩ = .ok r'
      ∧ r'.contains "file.txt" = true :=
  ⟨record_directory_rejection.1 _ _ _ (by decide) (by decide),
   record_directory_rejection.2.1 _
     ⟨⟨"a/dir/", "sha256=x", "0"⟩, by simp, by decide⟩,
   record_directory_rejection.2.2 _ _ _ (by decide) (by decide) (by decide)⟩

/-- C9: `namelist()` and `infolist()` return exactly the underlying
archive's entry list with the three managed metadata paths — the dist-info
directory's WHEEL, METADATA and RECORD — filtered out; every other entry
appears unchanged, and in the archive's order (the results are sublists of
the archive lists). -/
theorem namelist_infolist_filter_metadata :
    ∀ (st : WheelFileState),
      (∀ n, n ∈ st.namelist ↔ n ∈ zipNamelist st ∧ ¬ n ∈ skipList st) ∧
      List.Sublist st.namelist (zipNamelist st) ∧
      (∀ zi, zi ∈ st.infolist ↔ zi ∈ st.zipEntries ∧ ¬ zi.filename ∈ skipList st) ∧
      List.Sublist st.infolist st.zipEntries ∧
      skipList st = [distinfoPath st "WHEEL", distinfoPath st "METADATA",
        distinfoPath st "RECORD"] := by
  intro st
  refine ⟨?_, ?_, ?_, ?_, rfl⟩
  · intro n
    simp [WheelFileState.namelist, List.mem_filter]
  · exact List.filter_sublist _
  · intro zi
    simp [WheelFileState.infolist, List.mem_filter]
  · exact List.filter_sublist _

/-- `WheelRecord.update` raises only contract-violation asserts or the
directory error, never `ProhibitedWriteError`. -/
theorem update_error_kinds (r : WheelRecord) (p : String) (buf : ByteStream)
    (e : PyErr) (h : r.update p buf = .error e) :
    e = PyErr.assertionError ∨ e = PyErr.recordContainsDirectory := by
  unfold WheelRecord.update at h
  split_ifs at h <;> simp_all

/-- `refresh_record` raises only `RuntimeError`, `KeyError`, or errors from
`WheelRecord.update`, never `ProhibitedWriteError`. -/
theorem refreshRecord_no_prohibited (st : WheelFileState) (arcname : String) :
    (refreshRecord st arcname).1 ≠ some PyErr.prohibitedWrite := by
  unfold refreshRecord
  split
  · simp
  · split
    · simp
    · split
      · simp
      · split
        · simp
        · split
          · simp
          · rename_i r _ _ _ e he
            rcases update_error_kinds _ _ _ _ he with rfl | rfl <;> simp

/-- The plain write path (`ZipFile.writestr` followed by `refresh_record`)
can raise various errors, but never `ProhibitedWriteError`: that error is
raised only by the pre-checks of the two `*_distinfo` methods. -/
theorem writestrM_no_prohibited (st : WheelFileState) (arcname : String)
    (content : List Nat) :
    (writestrM st arcname content).1 ≠ some PyErr.prohibitedWrite := by
  unfold writestrM
  split
  · simp
  · exact refreshRecord_no_prohibited _ _

/-- Counterexample to C5 as stated: on an open wheel with an empty record,
`write_distinfo` with target name `RECORD/x` — whose first path segment is
`RECORD` — is not rejected (its check compares the whole arcname against
`METADATA_FILENAMES`, never the first segment), and `writestr_distinfo`
with an empty target name is not rejected either (its first-segment check
sees `''`, which is not a metadata filename; the empty-name check exists
only in `write_distinfo`). Both calls complete without
`ProhibitedWriteError` and write an entry into the archive. -/
theorem distinfo_write_prohibition_counterexample :
    (writeDistinfo ⟨[], some ⟨[], "sha256"⟩, "pkg-1.0.", false⟩ "RECORD/x" [0]).1
      = none ∧
    (writeDistinfo ⟨[], some ⟨[], "sha256"⟩, "pkg-1.0.", false⟩
        "RECORD/x" [0]).2.zipEntries
      = [⟨"pkg-1.0.dist-info/RECORD/x", [0]⟩] ∧
    (writestrDistinfo ⟨[], some ⟨[], "sha256"⟩, "pkg-1.0.", false⟩ "" [0]).1
      = none ∧
    (writestrDistinfo ⟨[], some ⟨[], "sha256"⟩, "pkg-1.0.", false⟩ "" [0]).2.zipEntries
      = [⟨"pkg-1.0.dist-info/", [0]⟩] := by
  refine ⟨by decide, by decide, by decide, by decide⟩

/-- C5 (amended): `write_distinfo` raises `ProhibitedWriteError` exactly
when the target name is empty or is literally `METADATA`, `WHEEL` or
`RECORD` (a name whose first path segment is one of these is not
rejected); `writestr_distinfo` raises it exactly when the name or its
first `/`-separated segment is one of the three (an empty name is not
rejected). In every rejected case the raise happens before anything is
written: the archive entries and the record manifest are unchanged. -/
theorem distinfo_write_prohibitions :
    (∀ (st : WheelFileState) (name : String) (content : List Nat),
        (name = "" ∨ name ∈ metadataFilenames) →
        writeDistinfo st name content = (some .prohibitedWrite, st)) ∧
    (∀ (st : WheelFileState) (name : String) (content : List Nat),
        (name ∈ metadataFilenames
          ∨ (pySplit '/' name).headD "" ∈ metadataFilenames) →
        writestrDistinfo st name content = (some .prohibitedWrite, st)) ∧
    (∀ (st : WheelFileState) (name : String) (content : List Nat),
        ¬ (name = "" ∨ name ∈ metadataFilenames) →
        (writeDistinfo st name content).1 ≠ some PyErr.prohibitedWrite) ∧
    (∀ (st : WheelFileState) (name : String) (content : List Nat),
        ¬ (name ∈ metadataFilenames
            ∨ (pySplit '/' name).headD "" ∈ metadataFilenames) →
        (writestrDistinfo st name content).1 ≠ some PyErr.prohibitedWrite) := by
  refine ⟨?_, ?_, ?_, ?_⟩
  · intro st name content h
    unfold writeDistinfo
    rcases h with rfl | h
    · simp
    · have hc : metadataFilenames.contains name = true :=
        List.elem_eq_true_of_mem h
      have hne : ¬ name = "" := by
        rintro rfl
        simp [metadataFilenames] at h
      rw [if_neg hne, if_pos hc]
  · intro st name content h
    unfold writestrDistinfo
    rcases h with h | h
    · rw [if_pos (Or.inl (List.elem_eq_true_of_mem h))]
    · rw [if_pos (Or.inr (List.elem_eq_true_of_mem h))]
  · intro st name content h
    push_neg at h
    unfold writeDistinfo
    simp only [h.1, if_false]
    have h2 : metadataFilenames.contains name = false := by
      simpa using h.2
    simp only [h2, Bool.false_eq_true, if_false]
    exact writestrM_no_prohibited _ _ _
  · intro st name content h
    push_neg at h
    unfold writestrDistinfo
    have h1 : metadataFilenames.contains name = false := by
      simpa using h.1
    have h2 : metadataFilenames.contains ((pySplit '/' name).headD "") = false := by
      simpa using h.2
    simp only [h1, h2, Bool.false_eq_true, false_or, if_false]
    exact writestrM_no_prohibited _ _ _

/-- Witness for C5 (amended) at concrete inputs: the name `METADATA` is
rejected with the state unchanged by both methods, and the benign name
`entry_points.txt` is not rejected by either. -/
theorem distinfo_write_prohibitions_check :
    writeDistinfo ⟨[], some ⟨[], "sha256"⟩, "pkg-1.0.", false⟩ "METADATA" [0]
      = (some .prohibitedWrite, ⟨[], some ⟨[], "sha256"⟩, "pkg-1.0.", false⟩) ∧
    writestrDistinfo ⟨[], some ⟨[], "sha256"⟩, "pkg-1.0.", false⟩ "METADATA" [0]
      = (some .prohibitedWrite, ⟨[], some ⟨[], "sha256"⟩, "pkg-1.0.", false⟩) ∧
    (writeDistinfo ⟨[], some ⟨[], "sha256"⟩, "pkg-1.0.", false⟩
        "entry_points.txt" [0]).1 ≠ some PyErr.prohibitedWrite ∧
    (writestrDistinfo ⟨[], some ⟨[], "sha256"⟩, "pkg-1.0.", false⟩
        "entry_points.txt" [0]).1 ≠ some PyErr.prohibitedWrite :=
  ⟨distinfo_write_prohibitions.1 _ _ _ (by decide),
   distinfo_write_prohibitions.2.1 _ _ _ (by decide),
   distinfo_write_prohibitions.2.2.1 _ _ _ (by decide),
   distinfo_write_prohibitions.2.2.2 _ _ _ (by decide)⟩

/-- Counterexample to C4 as stated: the claim says explicit arguments take
precedence over parsed filename segments component by component, but the
source combines them with Python `or`
(`given_language or segments[-3]`, wheelfile.py lines 1600–1602), so an
explicitly given empty-string tag argument loses to the parsed segment:
with `language_tag=''` on a 5-segment filename the language attribute
becomes the parsed `py38`, not the explicitly given `''`. -/
theorem explicit_empty_tag_argument_loses :
    (pickTags (some "my_awesome.wheel-4.2.0-py38-cp38d-linux_x84_64.whl")
        none (some "") none none).language = "py38" ∧
    ¬ (pickTags (some "my_awesome.wheel-4.2.0-py38-cp38d-linux_x84_64.whl")
        none (some "") none none).language = "" := by
  exact ⟨by decide, by decide⟩

/-- C4 (amended): for a named file target, a stem with exactly 5
dash-separated segments yields them as (distname, version, language, abi,
platform); a 6-segment stem additionally yields the third segment parsed
with `int()` as the build tag (a given build still wins); any other
segment count leaves each tag argument that was not given as the empty
string — never the `py3`/`none`/`any` defaults, which apply only to
unnamed-or-directory targets; a given build tag always takes precedence,
and a given *non-empty* language/abi/platform tag takes precedence
component by component (an explicitly empty one falls back to the parsed
segment, by Python `or` semantics — the one correction to the claim). -/
theorem filename_tag_inference :
    (∀ (fn d v l a p : String) (gb : Option Int),
        pySplit '-' (wheelStem fn) = [d, v, l, a, p] →
        pickTags (some fn) gb none none none = ⟨gb, l, a, p⟩) ∧
    (∀ (fn d : String) (rest : List String),
        pySplit '-' fn = d :: rest → d ≠ "" →
        pickADistname (some fn) none = .ok d) ∧
    (∀ (fn s0 s1 : String) (rest : List String) (ver : Version),
        pySplit '-' fn = s0 :: s1 :: rest → s1 ≠ "" →
        versionParse s1 = some ver →
        pickAVersion (some fn) none = .ok ver) ∧
    (∀ (fn d v b l a p : String) (n : Int),
        pySplit '-' (wheelStem fn) = [d, v, b, l, a, p] →
        pyInt? b = some n →
        pickTags (some fn) none none none none = ⟨some n, l, a, p⟩) ∧
    (∀ (fn : String) (gb : Option Int),
        (pySplit '-' (wheelStem fn)).length ≠ 5 →
        (pySplit '-' (wheelStem fn)).length ≠ 6 →
        pickTags (some fn) gb none none none = ⟨gb, "", "", ""⟩) ∧
    (∀ (fn : Option String) (gb : Option Int) (gl ga gp : Option String),
        gb.isSome → (pickTags fn gb gl ga gp).build = gb) ∧
    (∀ (fn : String) (gb : Option Int) (ga gp : Option String) (l : String),
        l ≠ "" → (pickTags (some fn) gb (some l) ga gp).language = l) ∧
    (∀ (fn : String) (gb : Option Int) (gl gp : Option String) (a : String),
        a ≠ "" → (pickTags (some fn) gb gl (some a) gp).abi = a) ∧
    (∀ (fn : String) (gb : Option Int) (gl ga : Option String) (p : String),
        p ≠ "" → (pickTags (some fn) gb gl ga (some p)).platform = p) ∧
    (∀ (gb : Option Int),
        pickTags none gb none none none = ⟨gb, "py3", "none", "any"⟩) := by
  refine ⟨?_, ?_, ?_, ?_, ?_, ?_, ?_, ?_, ?_, ?_⟩
  · intro fn d v l a p gb h
    simp [pickTags, h, pyOr, List.getD]
  · intro fn d rest h hne
    simp [pickADistname, h, hne]
  · intro fn s0 s1 rest ver h hne hver
    simp [pickAVersion, h, hne, hver]
  · intro fn d v b l a p n h hn
    simp [pickTags, h, hn, pyOr, List.getD]
  · intro fn gb h5 h6
    simp [pickTags, h5, h6, pyOr, List.getD]
  · intro fn gb gl ga gp hb
    rcases Option.isSome_iff_exists.mp hb with ⟨x, rfl⟩
    cases fn <;> simp [pickTags]
  · intro fn gb ga gp l hne
    simp [pickTags, pyOr, hne]
  · intro fn gb gl gp a hne
    simp [pickTags, pyOr, hne]
  · intro fn gb gl ga p hne
    simp [pickTags, pyOr, hne]
  · intro gb
    simp [pickTags, pyOr]

/-- Witness for C4 (amended) at concrete inputs: the example filename from
the claim yields its five stem segments, distname `my_awesome.wheel` and
version `4.2.0`; a 6-segment name yields the integer build tag; a
non-conforming name leaves the tags empty; the unnamed target gets the
`py3`/`none`/`any` defaults. -/
theorem filename_tag_inference_check :
    pickTags (some "my_awesome.wheel-4.2.0-py38-cp38d-linux_x84_64.whl")
        none none none none
      = ⟨none, "py38", "cp38d", "linux_x84_64"⟩ ∧
    pickADistname (some "my_awesome.wheel-4.2.0-py38-cp38d-linux_x84_64.whl")
        none = .ok "my_awesome.wheel" ∧
    pickAVersion (some "my_awesome.wheel-4.2.0-py38-cp38d-linux_x84_64.whl")
        none = .ok ⟨"4.2.0"⟩ ∧
    pickTags (some "d-1-3-l-a-p.whl") none none none none
      = ⟨some 3, "l", "a", "p"⟩ ∧
    pickTags (some "foo.whl") none none none none = ⟨none, "", "", ""⟩ ∧
    (pickTags (some "d-1-l-a-p.whl") (some 7) none none none).build = some 7 ∧
    (pickTags (some "d-1-l-a-p.whl") none (some "cp39") none none).language
      = "cp39" ∧
    (pickTags (some "d-1-l-a-p.whl") none none (some "abi3") none).abi
      = "abi3" ∧
    (pickTags (some "d-1-l-a-p.whl") none none none (some "win32")).platform
      = "win32" ∧
    pickTags none none none none none = ⟨none, "py3", "none", "any"⟩ :=
  ⟨filename_tag_inference.1 _ "my_awesome.wheel" "4.2.0" "py38" "cp38d"
      "linux_x84_64" none (by decide),
   filename_tag_inference.2.1 _ "my_awesome.wheel"
      ["4.2.0", "py38", "cp38d", "linux_x84_64.whl"] (by decide) (by decide),
   filename_tag_inference.2.2.1 _ "my_awesome.wheel" "4.2.0"
      ["py38", "cp38d", "linux_x84_64.whl"] ⟨"4.2.0"⟩
      (by decide) (by decide) (by decide),
   filename_tag_inference.2.2.2.1 _ "d" "1" "3" "l" "a" "p" 3
      (by decide) (by decide),
   filename_tag_inference.2.2.2.2.1 _ none (by decide) (by decide),
   filename_tag_inference.2.2.2.2.2.1 _ (some 7) none none none (by decide),
   filename_tag_inference.2.2.2.2.2.2.1 _ none none none "cp39" (by decide),
   filename_tag_inference.2.2.2.2.2.2.2.1 _ none none none "abi3" (by decide),
   filename_tag_inference.2.2.2.2.2.2.2.2.1 _ none none none "win32" (by decide),
   filename_tag_inference.2.2.2.2.2.2.2.2.2 none⟩

/-- C8: `from_wheelfile` raises `ValueError` before writing any data when
(a) the requested mode contains `'r'`; (b) the target buffer is the very
object serving as the source's underlying buffer; or (c) the target
resolves to the same filesystem directory as the source's file while all
six resolved identity components equal the source's. Cloning into the
same (or any) directory with at least one identity component changed
passes this validation and yields the resolved parameters. -/
theorem from_wheelfile_guards :
    (∀ (wf : SourceInfo) (target : CloneTarget) (mode : String)
        (dn : Override String) (v : Override VersionArg) (b : Override Int)
        (l a p : Override String),
        mode.data.contains 'r' = true →
        fromWheelfileGuard wf target mode dn v b l a p = .error .valueError) ∧
    (∀ (wf : SourceInfo) (id : Nat) (nm : Option String) (mode : String)
        (dn : Override String) (v : Override VersionArg) (b : Override Int)
        (l a p : Override String) (ps : CloneParams),
        mode.data.contains 'r' = false →
        wf.fpBufferId = some id →
        resolveIdentity wf dn v b l a p = .ok ps →
        fromWheelfileGuard wf (.buffer id nm) mode dn v b l a p
          = .error .valueError) ∧
    (∀ (wf : SourceInfo) (fn : String) (mode : String)
        (dn : Override String) (v : Override VersionArg) (b : Override Int)
        (l a p : Override String),
        mode.data.contains 'r' = false →
        wf.zipFilename = some fn →
        resolveIdentity wf dn v b l a p = .ok (sourceParams wf) →
        fromWheelfileGuard wf (.path wf.zipParentResolved) mode dn v b l a p
          = .error .valueError) ∧
    (∀ (wf : SourceInfo) (d : String) (mode : String)
        (dn : Override String) (v : Override VersionArg) (b : Override Int)
        (l a p : Override String) (ps : CloneParams),
        mode.data.contains 'r' = false →
        resolveIdentity wf dn v b l a p = .ok ps →
        ps ≠ sourceParams wf →
        fromWheelfileGuard wf (.path d) mode dn v b l a p = .ok ps) := by
  refine ⟨?_, ?_, ?_, ?_⟩
  · intro wf target mode dn v b l a p hr
    have hr' : 'r' ∈ mode.data := by simpa using hr
    simp [fromWheelfileGuard, hr']
  · intro wf id nm mode dn v b l a p ps hr hfp hres
    have hr' : 'r' ∉ mode.data := by simpa using hr
    simp [fromWheelfileGuard, hr', hres, hfp]
  · intro wf fn mode dn v b l a p hr hfn hres
    have hr' : 'r' ∉ mode.data := by simpa using hr
    simp [fromWheelfileGuard, hr', hres, hfn]
  · intro wf d mode dn v b l a p ps hr hres hne
    have hr' : 'r' ∉ mode.data := by simpa using hr
    simp [fromWheelfileGuard, hr', hres, hne]

/-- Witness for C8 at concrete inputs: a source wheel backed by the file
`pkg-1.0-py3-none-any.whl` in directory `/work` over buffer 7:
read mode is rejected; cloning into buffer 7 is rejected; cloning into
`/work` with no overrides is rejected; cloning into `/work` with the
distname overridden to `other` is accepted. -/
theorem from_wheelfile_guards_check :
    fromWheelfileGuard
        ⟨some 7, some "pkg-1.0-py3-none-any.whl", "/work", "pkg", ⟨"1.0"⟩,
         none, "py3", "none", "any"⟩
        (.path "/work") "r" .unspec .unspec .unspec .unspec .unspec .unspec
      = .error .valueError ∧
    fromWheelfileGuard
        ⟨some 7, some "pkg-1.0-py3-none-any.whl", "/work", "pkg", ⟨"1.0"⟩,
         none, "py3", "none", "any"⟩
        (.buffer 7 none) "w" .unspec .unspec .unspec .unspec .unspec .unspec
      = .error .valueError ∧
    fromWheelfileGuard
        ⟨some 7, some "pkg-1.0-py3-none-any.whl", "/work", "pkg", ⟨"1.0"⟩,
         none, "py3", "none", "any"⟩
        (.path "/work") "w" .unspec .unspec .unspec .unspec .unspec .unspec
      = .error .valueError ∧
    fromWheelfileGuard
        ⟨some 7, some "pkg-1.0-py3-none-any.whl", "/work", "pkg", ⟨"1.0"⟩,
         none, "py3", "none", "any"⟩
        (.path "/work") "w" (.given "other") .unspec .unspec .unspec .unspec
        .unspec
      = .ok ⟨some "other", some ⟨"1.0"⟩, none, some "py3", some "none",
             some "any"⟩ :=
  ⟨from_wheelfile_guards.1 _ (.path "/work") _ _ _ _ _ _ _ (by decide),
   from_wheelfile_guards.2.1 _ 7 none _ _ _ _ _ _ _
      (sourceParams ⟨some 7, some "pkg-1.0-py3-none-any.whl", "/work", "pkg",
        ⟨"1.0"⟩, none, "py3", "none", "any"⟩) (by decide) (by decide) (by rfl),
   from_wheelfile_guards.2.2.1 _ "pkg-1.0-py3-none-any.whl" _ _ _ _ _ _ _
      (by decide) (by decide) (by rfl),
   from_wheelfile_guards.2.2.2 _ "/work" _ _ _ _ _ _ _
      ⟨some "other", some ⟨"1.0"⟩, none, some "py3", some "none", some "any"⟩
      (by decide) (by rfl) (by decide)⟩

end Wheelfile
